import Mathlib

/-!
Verification development for the TravelAssistantBackend repository
(FastAPI travel-plan aggregator: src/config.py, src/schemas.py,
src/services.py, src/main.py).

Python strings are shallowly embedded as lists of characters
(abbreviation PyStr below), and the Python string primitives the code
uses (str.split, str.replace, the in operator, str.strip, slicing,
f-string decimal rendering, int() parsing of digit strings) are given
executable Lean counterparts with the same semantics on the inputs the
code produces.

Each outbound HTTP call is modelled by an oracle value describing the
upstream provider behaviour: a network failure / timeout / malformed
body (everything the surrounding try-except catches) is one
constructor, and a decoded JSON body is the other.  JSON field access
with .get and a default is modelled with Option and getD; a field whose
value has the wrong runtime type would make the Python code raise
inside the try block, which is subsumed by the failure constructor.

Randomness in the flight generator is modelled by an explicit draw
record per generated offer; the validity predicates below state exactly
the ranges that random.randint / random.choice / random.random
guarantee, and the theorems assume them.
-/

/-- Python strings as lists of characters. -/
abbrev PyStr := List Char

namespace TravelBackend

/-! ### Python string primitives -/

/-- Python str.replace for a non-empty pattern: replace every
non-overlapping occurrence of pat in s by rep, scanning left to right.
(The source never calls replace with an empty pattern; for pat = [] this
definition returns s unchanged.) -/
def pyReplace (s pat rep : PyStr) : PyStr :=
  match s with
  | [] => []
  | x :: r =>
    if h : pat ≠ [] ∧ pat.isPrefixOf (x :: r) = true then
      rep ++ pyReplace ((x :: r).drop pat.length) pat rep
    else
      x :: pyReplace r pat rep
termination_by s.length
decreasing_by
  · have hpat : 0 < pat.length := List.length_pos.mpr h.1
    simp only [List.length_drop, List.length_cons]
    omega
  · simp

/-- Python str.split(sep) for a non-empty separator: split s at every
non-overlapping occurrence of sep, scanning left to right.  The result
is always non-empty.  (The source only splits on the one-character
separators "/" and a Chinese character; Python raises on an empty
separator, which never occurs.) -/
def pySplit (s sep : PyStr) : List PyStr :=
  match s with
  | [] => [[]]
  | x :: r =>
    if h : sep ≠ [] ∧ sep.isPrefixOf (x :: r) = true then
      [] :: pySplit ((x :: r).drop sep.length) sep
    else
      match pySplit r sep with
      | [] => [[x]]
      | h₂ :: t => (x :: h₂) :: t
termination_by s.length
decreasing_by
  · have hsep : 0 < sep.length := List.length_pos.mpr h.1
    simp only [List.length_drop, List.length_cons]
    omega
  · simp

/-- Python membership test pat in s (substring containment). -/
def pyContains (s pat : PyStr) : Bool :=
  match s with
  | [] => pat.isEmpty
  | _ :: r => pat.isPrefixOf s || pyContains r pat

/-- Python str.strip() with no argument: remove leading and trailing
whitespace. -/
def pyStrip (s : PyStr) : PyStr :=
  ((s.dropWhile Char.isWhitespace).reverse.dropWhile Char.isWhitespace).reverse

/-- Python int() on a string of decimal digits (the only shape the code
parses back, namely the digits of a previously rendered number). -/
def pyStrToNat (s : PyStr) : Nat :=
  s.foldl (fun a c => a * 10 + (c.toNat - 48)) 0

/-- The decimal digit character for d in 0..9. -/
def digitChar (d : Nat) : Char :=
  match d with
  | 0 => '0' | 1 => '1' | 2 => '2' | 3 => '3' | 4 => '4'
  | 5 => '5' | 6 => '6' | 7 => '7' | 8 => '8' | _ => '9'

/-- Decimal rendering of a natural number, as Python str() produces. -/
def natToChars (n : Nat) : PyStr :=
  if h : n < 10 then [digitChar n]
  else natToChars (n / 10) ++ [digitChar (n % 10)]
termination_by n
decreasing_by
  exact Nat.div_lt_self (by omega) (by omega)

/-- Decimal rendering of an integer, as a Python f-string produces. -/
def intToChars (i : Int) : PyStr :=
  if i < 0 then '-' :: natToChars (-i).toNat else natToChars i.toNat

/-- Python f-string formatting with the 02d spec: zero-pad to width 2. -/
def two2 (n : Nat) : PyStr :=
  if n < 10 then '0' :: [digitChar n] else natToChars n

/-! ### Data model (src/schemas.py) -/

/-- schemas.WeatherInfo. -/
structure WeatherInfo where
  date : PyStr
  day_temp : PyStr
  night_temp : PyStr
  day_weather : PyStr
  night_weather : PyStr
  wind : PyStr
deriving DecidableEq, Repr

/-- schemas.Attraction.  The code always supplies concrete strings for
every field (the sentinel entries use the empty string), so the
Optional address/type fields are embedded as plain strings. -/
structure Attraction where
  name : PyStr
  address : PyStr
  type : PyStr
  description : PyStr
deriving DecidableEq, Repr

/-- schemas.FlightInfo. -/
structure FlightInfo where
  flight_number : PyStr
  departure_time : PyStr
  arrival_time : PyStr
  price : PyStr
  airline : PyStr
  aircraft_type : PyStr
  duration : PyStr
  punctuality_rate : PyStr
  seat_class : PyStr
  transfer : PyStr
  discount : PyStr
deriving DecidableEq, Repr

/-- schemas.TravelRequest.  days is an int; the handler performs its own
range check on it. -/
structure TravelRequest where
  destination : PyStr
  days : Int
  budget : PyStr
  start_date : Option PyStr
  departure_city : Option PyStr
  interests : Option (List PyStr)
deriving DecidableEq, Repr

/-- schemas.TravelPlanResponse. -/
structure TravelPlanResponse where
  destination : PyStr
  itinerary : PyStr
  weather_info : List WeatherInfo
  attractions : List Attraction
  flight_info : Option (List FlightInfo)
  status : PyStr
  message : Option PyStr
deriving DecidableEq, Repr

/-! ### Upstream oracles -/

/-- Outcome of one outbound HTTP request as observed inside the
surrounding try block: either some exception was raised (network error,
timeout, non-2xx status via raise_for_status, JSON decode error, or a
type error while digging into the body), or a decoded body of type α
was obtained. -/
inductive HttpResult (α : Type) where
  | exn : HttpResult α
  | ok (body : α) : HttpResult α
deriving DecidableEq, Repr

/-- One entry of the weather provider's future array; every field is
read with .get and a default, so absent keys are Option.none. -/
structure WeatherEntryRaw where
  temperature : Option PyStr
  weather : Option PyStr
  date : Option PyStr
  direct : Option PyStr
deriving DecidableEq, Repr

/-- The result object of the weather provider's body. -/
structure WeatherResult where
  future : Option (List WeatherEntryRaw)
deriving DecidableEq, Repr

/-- Decoded weather provider body.  result = none models both an absent
and a falsy (empty) result object, matching the Python truthiness test
data.get("result"). -/
structure WeatherData where
  error_code : Option Int
  result : Option WeatherResult
deriving DecidableEq, Repr

/-- One entry of the attraction provider's list. -/
structure ScenicRaw where
  content : Option PyStr
  name : Option PyStr
  province : Option PyStr
  city : Option PyStr
deriving DecidableEq, Repr

/-- The result object of the attraction provider's body. -/
structure AttrResult where
  list : Option (List ScenicRaw)
deriving DecidableEq, Repr

/-- Decoded attraction provider body. -/
structure AttrData where
  error_code : Option Int
  result : Option AttrResult
deriving DecidableEq, Repr

/-- One element of the choices array of the text-generation response.
message_content = none models a choice lacking the message/content keys
(in Python that access raises KeyError inside the try block of the
caller-side; here it is routed to the fallback like every other
exception). -/
structure LlmChoice where
  message_content : Option PyStr
deriving DecidableEq, Repr

/-- Decoded text-generation response body: choices = none models a body
without a choices key. -/
structure LlmBody where
  choices : Option (List LlmChoice)
deriving DecidableEq, Repr

/-- Outcome of the text-generation call. -/
inductive LlmResult where
  | exn : LlmResult
  | ok (body : LlmBody) : LlmResult
deriving DecidableEq, Repr

/-! ### Configuration constants (src/config.py) -/

/-- config.MAX_ATTRACTIONS. -/
def MAX_ATTRACTIONS : Nat := 6

/-! ### Weather lookup (src/services.py, get_weather_info) -/

/-- Parsing of a single forecast entry inside get_weather_info: the
temperature string has the degree character removed, then is split on
"/" into night/day parts unless it lacks "/" or is the literal "N/A";
the condition string is split on the separator character into a day and
a night condition, defaulting to the whole text when the separator is
absent. -/
def parseWeatherDay (day : WeatherEntryRaw) : WeatherInfo :=
  let temp_range := pyReplace (day.temperature.getD ('N' :: '/' :: 'A' :: [])) ['℃'] []
  let temps :=
    if pyContains temp_range ['/'] = true ∧ temp_range ≠ ('N' :: '/' :: 'A' :: []) then
      let temp_parts := pySplit temp_range ['/']
      (if 0 < temp_parts.length then temp_parts.getD 0 [] ++ ('°' :: 'C' :: []) else ('N' :: '/' :: 'A' :: []),
       if 1 < temp_parts.length then temp_parts.getD 1 [] ++ ('°' :: 'C' :: []) else ('N' :: '/' :: 'A' :: []))
    else (('N' :: '/' :: 'A' :: []), ('N' :: '/' :: 'A' :: []))
  let weather_text := day.weather.getD ('未' :: '知' :: [])
  let conds :=
    if pyContains weather_text ['转'] = true then
      let weather_parts := pySplit weather_text ['转']
      (if 0 < weather_parts.length then weather_parts.getD 0 [] else ('未' :: '知' :: []),
       if 1 < weather_parts.length then weather_parts.getD 1 [] else ('未' :: '知' :: []))
    else (weather_text, weather_text)
  { date := day.date.getD []
    day_temp := temps.2
    night_temp := temps.1
    day_weather := conds.1
    night_weather := conds.2
    wind := day.direct.getD ('N' :: '/' :: 'A' :: []) }

/-- The list built by the parsing loop of get_weather_info from a
decoded body: the first 4 future entries when the status check passes,
otherwise the empty list. -/
def parsedWeatherList (data : WeatherData) : List WeatherInfo :=
  if data.error_code = some 0 then
    match data.result with
    | some res => ((res.future.getD []).take 4).map parseWeatherDay
    | none => []
  else []

/-- Sentinel entry returned by get_weather_info from its except branch. -/
def weatherExnSentinel : WeatherInfo :=
  { date := ('N' :: '/' :: 'A' :: [])
    day_temp := ('N' :: '/' :: 'A' :: [])
    night_temp := ('N' :: '/' :: 'A' :: [])
    day_weather := "服务暂不可用".data
    night_weather := "服务暂不可用".data
    wind := ('N' :: '/' :: 'A' :: []) }

/-- Sentinel entry returned by get_weather_info when the decoded body
yields an empty parsed list. -/
def weatherEmptySentinel : WeatherInfo :=
  { date := ('N' :: '/' :: 'A' :: [])
    day_temp := ('N' :: '/' :: 'A' :: [])
    night_temp := ('N' :: '/' :: 'A' :: [])
    day_weather := "数据获取失败".data
    night_weather := "数据获取失败".data
    wind := ('N' :: '/' :: 'A' :: []) }

/-- services.get_weather_info, with the outbound request replaced by its
oracle outcome. -/
def get_weather_info (resp : HttpResult WeatherData) : List WeatherInfo :=
  match resp with
  | .exn => [weatherExnSentinel]
  | .ok data =>
    let weather_list := parsedWeatherList data
    if weather_list ≠ [] then weather_list else [weatherEmptySentinel]

/-! ### Attraction lookup (src/services.py, get_attractions) -/

/-- Parsing of a single scenic entry inside get_attractions: the content
gets simple markup stripped and is truncated to 100 characters with a
continuation marker; province and city are concatenated into the
address; the type is a fixed label. -/
def parseScenic (sc : ScenicRaw) : Attraction :=
  let content := sc.content.getD []
  let content :=
    if content ≠ [] then
      let c := pyReplace content "<br>".data [' ']
      let c := pyReplace c "    ".data [' ']
      if 100 < c.length then c.take 100 ++ ('.' :: '.' :: '.' :: []) else c
    else content
  { name := sc.name.getD []
    address := sc.province.getD [] ++ sc.city.getD []
    type := "风景名胜".data
    description := content }

/-- The list built by the parsing loop of get_attractions from a decoded
body. -/
def parsedAttractionList (data : AttrData) : List Attraction :=
  if data.error_code = some 0 then
    match data.result with
    | some res => ((res.list.getD []).take MAX_ATTRACTIONS).map parseScenic
    | none => []
  else []

/-- Sentinel entry returned by get_attractions from its except branch. -/
def attractionExnSentinel : Attraction :=
  { name := "景点信息获取失败".data, address := [], type := [], description := [] }

/-- Sentinel entry returned by get_attractions when the decoded body
yields an empty parsed list. -/
def attractionEmptySentinel : Attraction :=
  { name := "景点信息暂不可用".data, address := [], type := [], description := [] }

/-- services.get_attractions, with the outbound request replaced by its
oracle outcome. -/
def get_attractions (resp : HttpResult AttrData) : List Attraction :=
  match resp with
  | .exn => [attractionExnSentinel]
  | .ok data =>
    let attractions := parsedAttractionList data
    if attractions ≠ [] then attractions else [attractionEmptySentinel]

/-! ### Flight lookup (src/services.py, get_flight_info)

The generator is pure except for its pseudo-random draws; each draw is
made explicit below.  The try-except wrapping the body in the source can
only fire on a strptime failure, and the departure hour is always drawn
inside a slot whose bounds are at most 23, so on draws satisfying the
randint/choice ranges (the validity predicates below) the except branch
is unreachable and is not modelled. -/

/-- The airline code → name table, in source order. -/
def airlines : List (PyStr × PyStr) :=
  [("CA".data, "中国国际航空".data), ("MU".data, "东方航空".data),
   ("CZ".data, "南方航空".data), ("HU".data, "海南航空".data),
   ("ZH".data, "深圳航空".data), ("MF".data, "厦门航空".data),
   ("9C".data, "春秋航空".data), ("KN".data, "中国联合航空".data)]

/-- The aircraft type table. -/
def aircraft_types : List PyStr :=
  ["B737".data, "A320".data, "A321".data, "B787".data, "A330".data,
   "B777".data, "A350".data]

/-- The fixed city-pair flight duration table (minutes). -/
def city_pairs : List ((PyStr × PyStr) × Nat) :=
  [(("北京".data, "上海".data), 120), (("上海".data, "广州".data), 135),
   (("北京".data, "广州".data), 180), (("深圳".data, "北京".data), 185),
   (("成都".data, "上海".data), 150), (("杭州".data, "广州".data), 125)]

/-- The five departure time-of-day bands. -/
def time_slots : List (PyStr × PyStr) :=
  [("06:00".data, "08:00".data), ("09:00".data, "12:00".data),
   ("13:00".data, "16:00".data), ("17:00".data, "20:00".data),
   ("21:00".data, "23:00".data)]

/-- The 10-minute-aligned departure minute strings. -/
def minute_choices : List PyStr :=
  ["00".data, "10".data, "20".data, "30".data, "40".data, "50".data]

/-- The seat class table (weighted 70/15/10/5 in the source; the weights
only bias the draw and do not affect any stated property). -/
def seat_classes : List PyStr :=
  ["经济舱".data, "超级经济舱".data, "商务舱".data, "头等舱".data]

/-- The discount label table. -/
def discounts : List PyStr :=
  [[], "学生价95折".data, "会员优惠".data, "限时特惠".data, "往返立减".data]

/-- The random draws consumed by one iteration of the offer loop, in the
order the source makes them. -/
structure OfferDraw where
  airlineIdx : Nat
  slotIdx : Nat
  depHour : Nat
  depMinuteIdx : Nat
  durJitter : Int
  priceJitter : Int
  flightNum : Nat
  aircraftIdx : Nat
  punct : Nat
  seatIdx : Nat
  transferRand : Bool
  discountRand : Bool
  discountIdx : Nat
deriving DecidableEq, Repr

/-- Placeholder draw used only to make indexed access total; validity of
the actually used draws is a hypothesis of every theorem. -/
def defaultDraw : OfferDraw :=
  ⟨0, 0, 6, 0, 0, 0, 1300, 0, 75, 0, false, false, 0⟩

/-- The ranges random.randint / random.choice / random.random guarantee
for the draws of one loop iteration.  The departure hour is drawn
between the numeric prefixes of the selected slot's bounds. -/
def ValidDraw (d : OfferDraw) : Prop :=
  d.airlineIdx < 8 ∧ d.slotIdx < 5 ∧
  pyStrToNat ((time_slots.getD d.slotIdx ("06:00".data, "08:00".data)).1.take 2) ≤
      d.depHour ∧
  d.depHour ≤ pyStrToNat ((time_slots.getD d.slotIdx ("06:00".data, "08:00".data)).2.take 2) ∧
  d.depMinuteIdx < 6 ∧
  -10 ≤ d.durJitter ∧ d.durJitter ≤ 30 ∧
  -100 ≤ d.priceJitter ∧ d.priceJitter ≤ 200 ∧
  1300 ≤ d.flightNum ∧ d.flightNum ≤ 8999 ∧
  d.aircraftIdx < 7 ∧ 75 ≤ d.punct ∧ d.punct ≤ 95 ∧
  d.seatIdx < 4 ∧ d.discountIdx < 5

instance (d : OfferDraw) : Decidable (ValidDraw d) := by
  unfold ValidDraw; infer_instance

/-- All random draws of one get_flight_info call: the fallback base
duration (used only when the city pair is not in the table), the offer
count, and one OfferDraw per loop iteration. -/
structure FlightRand where
  baseRand : Nat
  count : Nat
  draws : List OfferDraw
deriving DecidableEq, Repr

/-- The ranges the random module guarantees for a whole call. -/
def ValidFlightRand (r : FlightRand) : Prop :=
  90 ≤ r.baseRand ∧ r.baseRand ≤ 180 ∧ 4 ≤ r.count ∧ r.count ≤ 8 ∧
  ∀ i, i < r.count → ValidDraw (r.draws.getD i defaultDraw)

instance (r : FlightRand) : Decidable (ValidFlightRand r) := by
  unfold ValidFlightRand; infer_instance

/-- The numeric sort key int(x.price[1:]) used by the source to sort
the offer list: strip the currency prefix and parse the digits. -/
def priceKey (f : FlightInfo) : Nat := pyStrToNat (f.price.drop 1)

/-- The base-price block of the offer loop: 800 adjusted by the
departure slot (early and late slots are cheaper, the rest dearer) and
then by a low-cost-airline rebate. -/
def flight_base_price (dep_slot : PyStr × PyStr) (airline_code : PyStr) : Int :=
  let base_price : Int :=
    if dep_slot.1 = "06:00".data then 800 - 100
    else if dep_slot.1 = "21:00".data then 800 - 150
    else 800 + 200
  if airline_code = "9C".data ∨ airline_code = "KN".data then base_price - 300
  else base_price

/-- One iteration of the offer loop of get_flight_info: builds a single
FlightInfo from the base duration and the iteration's draws.  datetime
arithmetic on same-day HH:MM values is carried out in minutes; the
strftime rendering of the arrival instant reduces it modulo one day
(1440 minutes), exactly as the source's datetime strftime("%H:%M")
does. -/
def mkOffer (base : Nat) (d : OfferDraw) : FlightInfo :=
  let code_name := airlines.getD d.airlineIdx ("CA".data, "中国国际航空".data)
  let dep_slot := time_slots.getD d.slotIdx ("06:00".data, "08:00".data)
  let dep_minute := minute_choices.getD d.depMinuteIdx "00".data
  let departure_time := two2 d.depHour ++ ':' :: dep_minute
  let depTot : Int := 60 * d.depHour + pyStrToNat dep_minute
  let dur : Int := (base : Int) + d.durJitter
  let arrTot : Int := (depTot + dur) % 1440
  let arrival_time := two2 (arrTot.toNat / 60) ++ ':' :: two2 (arrTot.toNat % 60)
  let duration_minutes := dur
  let duration_str :=
    natToChars (duration_minutes.toNat / 60) ++ 'h' :: two2 (duration_minutes.toNat % 60) ++ ['m']
  let final_price : Int := max 400 (flight_base_price dep_slot code_name.1 + d.priceJitter)
  { flight_number := code_name.1 ++ natToChars d.flightNum
    departure_time := departure_time
    arrival_time := arrival_time
    price := '¥' :: natToChars final_price.toNat
    airline := code_name.2
    aircraft_type := aircraft_types.getD d.aircraftIdx "B737".data
    duration := duration_str
    punctuality_rate := natToChars d.punct ++ ['%']
    seat_class := seat_classes.getD d.seatIdx "经济舱".data
    transfer := if d.transferRand then "经停".data else "直飞".data
    discount := if d.discountRand then discounts.getD d.discountIdx [] else [] }

/-- services.get_flight_info, with the random module replaced by the
explicit draw record.  The final list.sort(key=...) (a stable sort by
the numeric price) is modelled by the stable insertion sort. -/
def get_flight_info (departure_city destination _date : PyStr) (r : FlightRand) :
    List FlightInfo :=
  let base_duration :=
    match (city_pairs.find? fun p => p.1.1 == departure_city && p.1.2 == destination) with
    | some p => p.2
    | none => r.baseRand
  let mock_flights :=
    (List.range r.count).map fun i => mkOffer base_duration (r.draws.getD i defaultDraw)
  List.insertionSort (fun a b => priceKey a ≤ priceKey b) mock_flights

/-! ### Itinerary composition (src/services.py) -/

/-- Parsing an HH:MM string back into minutes after midnight (used to
state the departure/arrival chronology property). -/
def hhmmToMin (s : PyStr) : Nat :=
  match pySplit s [':'] with
  | [h, m] => 60 * pyStrToNat h + pyStrToNat m
  | _ => 0

/-- services.generate_fallback_itinerary: the attraction window of day
number day (1-based), the Python slice attractions[(day-1)*2 : day*2+1]. -/
def fallbackDayAttractions (day : Nat) (attractions : List Attraction) : List Attraction :=
  (attractions.take (day * 2 + 1)).drop ((day - 1) * 2)

/-- services.generate_fallback_itinerary: the weather line of day number
day, present exactly when the weather list has an entry for that day. -/
def dayWeatherPart (day : Nat) (weather : List WeatherInfo) : PyStr :=
  if day ≤ weather.length then
    let w := weather.getD (day - 1) ⟨[], [], [], [], [], []⟩
    "**天气:** ".data ++ w.day_weather ++ ", ".data ++ w.day_temp ++ "\n\n".data
  else []

/-- One iteration of the day loop of generate_fallback_itinerary. -/
def fallbackDaySection (day : Nat) (weather : List WeatherInfo)
    (attractions : List Attraction) : PyStr :=
  let day_attractions := fallbackDayAttractions day attractions
  "## 第".data ++ natToChars day ++ "天\n\n".data
    ++ dayWeatherPart day weather
    ++ (if day_attractions ≠ [] then
          "**推荐景点:**\n".data
            ++ (day_attractions.map fun attr => "- ".data ++ attr.name ++ ['\n']).flatten
        else [])
    ++ ['\n']

/-- services.generate_fallback_itinerary.  The day loop runs over
range(1, days + 1), which is empty when days < 1. -/
def generate_fallback_itinerary (destination : PyStr) (days : Int)
    (weather : List WeatherInfo) (attractions : List Attraction) : PyStr :=
  "# ".data ++ destination ++ [' '] ++ intToChars days ++ "天旅行计划\n\n".data
    ++ "*(由于智能规划服务暂时不可用,以下为基础行程建议)*\n\n".data
    ++ ((List.range' 1 days.toNat).map fun day =>
          fallbackDaySection day weather attractions).flatten
    ++ "\n**温馨提示:** 建议根据实际情况调整行程,注意天气变化。\n".data

/-- services.generate_itinerary_with_llm, with the outbound POST
replaced by its oracle outcome.  The prompt string the source builds
from destination/days/budget/weather/attractions/interests/start_date
only feeds the external endpoint and cannot influence control flow, so
it is not materialised; every failure the source's except clauses catch
(timeout, network error, any other exception, including a KeyError
while reading choices[0]["message"]["content"]) and the explicit
malformed-shape branch all return the fallback text. -/
def generate_itinerary_with_llm (destination : PyStr) (days : Int) (_budget : PyStr)
    (weather : List WeatherInfo) (attractions : List Attraction)
    (_interests : Option (List PyStr)) (_start_date : Option PyStr)
    (llm : LlmResult) : PyStr :=
  match llm with
  | .exn => generate_fallback_itinerary destination days weather attractions
  | .ok body =>
    match body.choices with
    | some (c :: _) =>
      match c.message_content with
      | some txt => txt
      | none => generate_fallback_itinerary destination days weather attractions
    | _ => generate_fallback_itinerary destination days weather attractions

/-- The text-generation failure modes named by the spec: request
exception, or a response body lacking a non-empty choices list. -/
def llmFailed (llm : LlmResult) : Bool :=
  match llm with
  | .exn => true
  | .ok body =>
    match body.choices with
    | some (_ :: _) => false
    | _ => true

/-! ### The request handler (src/main.py, generate_travel_plan) -/

/-- fastapi.HTTPException as raised by the handler. -/
structure HTTPError where
  status_code : Nat
  detail : PyStr
deriving DecidableEq, Repr

/-- Which upstream service calls the handler performs, in order. -/
inductive UpCall where
  | weather | attractions | flights | llm
deriving DecidableEq, Repr

/-- The oracle outcomes of all upstream services for one request. -/
structure Env where
  weatherResp : HttpResult WeatherData
  attrResp : HttpResult AttrData
  flightRand : FlightRand
  llmResp : LlmResult
deriving DecidableEq, Repr

/-- Python truthiness of an optional string (None and the empty string
are falsy). -/
def truthyStr : Option PyStr → Bool
  | none => false
  | some s => !s.isEmpty

/-- main.generate_travel_plan: validation, sequential fan-out, and
response assembly.  The second component records which upstream calls
were performed.  The handler's own final except clause (a 500 carrying
the message of an unexpected exception) is unreachable in the model
because every modelled component is total. -/
def generate_travel_plan (request : TravelRequest) (env : Env) :
    Except HTTPError TravelPlanResponse × List UpCall :=
  if request.destination = [] ∨ pyStrip request.destination = [] then
    (.error ⟨400, "目的地不能为空".data⟩, [])
  else if request.days < 1 ∨ 30 < request.days then
    (.error ⟨400, "旅行天数必须在1-30天之间".data⟩, [])
  else
    let weather_info := get_weather_info env.weatherResp
    let attractions := get_attractions env.attrResp
    let useFlights := truthyStr request.departure_city && truthyStr request.start_date
    let flight_info :=
      if useFlights then
        some (get_flight_info (request.departure_city.getD []) request.destination
          (request.start_date.getD []) env.flightRand)
      else none
    let itinerary := generate_itinerary_with_llm request.destination request.days
      request.budget weather_info attractions request.interests request.start_date
      env.llmResp
    (.ok
      { destination := request.destination
        itinerary := itinerary
        weather_info := weather_info
        attractions := attractions
        flight_info := flight_info
        status := "success".data
        message := some "行程规划生成成功".data },
     [UpCall.weather, UpCall.attractions]
       ++ (if useFlights then [UpCall.flights] else []) ++ [UpCall.llm])

/-! ### Statement-level helpers

These definitions formalise wording of the specification (substring
before / after the first occurrence of a separator) and are only used in
theorem statements. -/

/-- The substring of s strictly before the first occurrence of c. -/
def beforeFirst (c : Char) (s : PyStr) : PyStr :=
  s.takeWhile (fun x => x != c)

/-- The substring of s strictly after the first occurrence of c. -/
def afterFirst (c : Char) (s : PyStr) : PyStr :=
  (s.dropWhile (fun x => x != c)).drop 1

/-! ### Order instances for the price sort, and concrete sample inputs -/

instance : IsTotal FlightInfo (fun a b => priceKey a ≤ priceKey b) :=
  ⟨fun a b => Nat.le_total _ _⟩

instance : IsTrans FlightInfo (fun a b => priceKey a ≤ priceKey b) :=
  ⟨fun _ _ _ => Nat.le_trans⟩

/-- A trivial upstream environment (every provider fails). -/
def envTriv : Env := ⟨.exn, .exn, ⟨90, 4, []⟩, .exn⟩

/-- A concrete valid request. -/
def reqSample : TravelRequest := ⟨"北京".data, 3, "中等".data, none, none, none⟩

/-- An environment whose text-generation call succeeds with an empty
first-choice content. -/
def envEmptyContent : Env := ⟨.exn, .exn, ⟨90, 4, []⟩, .ok ⟨some [⟨some []⟩]⟩⟩

/-- A second copy of the valid request, for the empty-content scenario. -/
def reqEmptyContent : TravelRequest := ⟨"北京".data, 3, "中等".data, none, none, none⟩

/-- A concrete valid request that supplies a departure city and a start
date. -/
def reqWithFlights : TravelRequest :=
  ⟨"北京".data, 3, "中等".data, some "2025-11-01".data, some "上海".data, none⟩

/-- Concrete random draws for the flight generator (all default draws). -/
def sampleRand : FlightRand := ⟨100, 4, []⟩

/-- A concrete one-day weather list. -/
def weatherSample : List WeatherInfo :=
  [⟨"2025-11-01".data, "18°C".data, "8°C".data, "晴".data, "晴".data, "北风".data⟩]

/-- A concrete four-entry attraction list. -/
def attrsSample : List Attraction :=
  [⟨['A'], [], [], []⟩, ⟨['B'], [], [], []⟩, ⟨['C'], [], [], []⟩, ⟨['D'], [], [], []⟩]

/-! ### Lemmas about the string primitives -/

theorem digitChar_toNat {d : Nat} (h : d < 10) : (digitChar d).toNat = 48 + d := by
  interval_cases d <;> rfl

theorem digitChar_mem_digits {d : Nat} (h : d < 10) :
    digitChar d ∈ ['0', '1', '2', '3', '4', '5', '6', '7', '8', '9'] := by
  interval_cases d <;> decide

theorem natToChars_mem {n : Nat} {c : Char} (hc : c ∈ natToChars n) :
    c ∈ ['0', '1', '2', '3', '4', '5', '6', '7', '8', '9'] := by
  induction n using Nat.strong_induction_on with
  | _ n ih =>
    rw [natToChars] at hc
    split at hc
    case isTrue h =>
      simp only [List.mem_singleton] at hc
      subst hc
      exact digitChar_mem_digits h
    case isFalse h =>
      rw [List.mem_append] at hc
      rcases hc with hc | hc
      · exact ih _ (Nat.div_lt_self (by omega) (by omega)) hc
      · simp only [List.mem_singleton] at hc
        subst hc
        exact digitChar_mem_digits (Nat.mod_lt _ (by omega))

theorem two2_mem {n : Nat} {c : Char} (hc : c ∈ two2 n) :
    c ∈ ['0', '1', '2', '3', '4', '5', '6', '7', '8', '9'] := by
  unfold two2 at hc
  split at hc
  case isTrue h =>
    rw [List.mem_cons] at hc
    rcases hc with hc | hc
    · subst hc; decide
    · simp only [List.mem_singleton] at hc
      subst hc
      exact digitChar_mem_digits h
  case isFalse h => exact natToChars_mem hc

theorem colon_not_mem_two2 (n : Nat) : ':' ∉ two2 n := by
  intro h
  have := two2_mem h
  simp at this

theorem pyStrToNat_append_singleton (a : PyStr) (c : Char) :
    pyStrToNat (a ++ [c]) = pyStrToNat a * 10 + (c.toNat - 48) := by
  simp [pyStrToNat, List.foldl_append]

theorem pyStrToNat_natToChars (n : Nat) : pyStrToNat (natToChars n) = n := by
  induction n using Nat.strong_induction_on with
  | _ n ih =>
    rw [natToChars]
    split
    case isTrue h =>
      show 0 * 10 + ((digitChar n).toNat - 48) = n
      rw [digitChar_toNat h]
      omega
    case isFalse h =>
      rw [pyStrToNat_append_singleton, ih _ (Nat.div_lt_self (by omega) (by omega)),
        digitChar_toNat (Nat.mod_lt _ (by omega))]
      omega

theorem pyStrToNat_two2 (n : Nat) : pyStrToNat (two2 n) = n := by
  unfold two2
  split
  case isTrue h =>
    show (0 * 10 + ('0'.toNat - 48)) * 10 + ((digitChar n).toNat - 48) = n
    rw [digitChar_toNat h]
    have h48 : '0'.toNat = 48 := rfl
    rw [h48]
    omega
  case isFalse h => exact pyStrToNat_natToChars n

theorem pySplit_nil (sep : PyStr) : pySplit [] sep = [[]] := by
  rw [pySplit.eq_def]

theorem pySplit_ne_nil (s sep : PyStr) : pySplit s sep ≠ [] := by
  rw [pySplit.eq_def]
  cases s with
  | nil => simp
  | cons x r =>
    dsimp only
    split
    · simp
    · split <;> simp

/-- The prefix test for a one-character pattern is a head comparison. -/
theorem isPrefixOf_singleton (c x : Char) (r : PyStr) :
    ([c].isPrefixOf (x :: r)) = (c == x) := by
  show (c == x && ([] : PyStr).isPrefixOf r) = (c == x)
  simp [List.isPrefixOf]

/-- One unfolding step of pySplit for a one-character separator. -/
theorem pySplit_cons (c x : Char) (r : PyStr) :
    pySplit (x :: r) [c] =
      if c = x then [] :: pySplit r [c]
      else
        match pySplit r [c] with
        | [] => [[x]]
        | h₂ :: t => (x :: h₂) :: t := by
  conv_lhs => rw [pySplit.eq_def]
  dsimp only
  by_cases hcx : c = x
  · rw [dif_pos ⟨by simp, by rw [isPrefixOf_singleton]; exact beq_iff_eq.mpr hcx⟩,
      if_pos hcx]
    simp
  · rw [dif_neg, if_neg hcx]
    rintro ⟨-, hpre⟩
    rw [isPrefixOf_singleton] at hpre
    exact hcx (beq_iff_eq.mp hpre)

theorem pySplit_not_mem {c : Char} {s : PyStr} (h : c ∉ s) : pySplit s [c] = [s] := by
  induction s with
  | nil => exact pySplit_nil [c]
  | cons x r ih =>
    rw [pySplit_cons]
    have hcx : c ≠ x := fun hc => h (hc ▸ List.mem_cons_self x r)
    rw [if_neg hcx, ih (fun hc => h (List.mem_cons_of_mem x hc))]

theorem pySplit_append {c : Char} {a : PyStr} (b : PyStr) (ha : c ∉ a) :
    pySplit (a ++ c :: b) [c] = a :: pySplit b [c] := by
  induction a with
  | nil =>
    rw [List.nil_append, pySplit_cons, if_pos rfl]
  | cons x r ih =>
    have hcx : c ≠ x := fun hc => ha (hc ▸ List.mem_cons_self x r)
    have ih' := ih (fun hc => ha (List.mem_cons_of_mem x hc))
    rw [List.cons_append, pySplit_cons, if_neg hcx, ih']

theorem pyContains_singleton (s : PyStr) (c : Char) :
    pyContains s [c] = true ↔ c ∈ s := by
  induction s with
  | nil => simp [pyContains]
  | cons x r ih =>
    show (([c].isPrefixOf (x :: r)) || pyContains r [c]) = true ↔ c ∈ x :: r
    rw [isPrefixOf_singleton, Bool.or_eq_true, List.mem_cons, ih, beq_iff_eq]

/-- Decomposition at the first occurrence: a string containing c is its
beforeFirst part, then c, then its afterFirst part, and c does not occur
in the beforeFirst part. -/
theorem first_occurrence_decomp {c : Char} {s : PyStr} (h : c ∈ s) :
    s = beforeFirst c s ++ c :: afterFirst c s ∧ c ∉ beforeFirst c s := by
  induction s with
  | nil => cases h
  | cons x r ih =>
    by_cases hcx : c = x
    · subst hcx
      constructor
      · simp [beforeFirst, afterFirst]
      · simp [beforeFirst]
    · have hr : c ∈ r := by
        rw [List.mem_cons] at h
        rcases h with h | h
        · exact absurd h hcx
        · exact h
      obtain ⟨hdec, hnot⟩ := ih hr
      have hx : (x != c) = true := by
        rw [bne_iff_ne]
        exact fun hh => hcx hh.symm
      constructor
      · simp only [beforeFirst, afterFirst, List.takeWhile_cons, List.dropWhile_cons, hx,
          if_true]
        simpa [beforeFirst, afterFirst] using hdec
      · simp only [beforeFirst, List.takeWhile_cons, hx, if_true]
        intro hmem
        rw [List.mem_cons] at hmem
        rcases hmem with hmem | hmem
        · exact hcx hmem
        · exact hnot hmem

theorem beforeFirst_of_not_mem {c : Char} {s : PyStr} (h : c ∉ s) :
    beforeFirst c s = s := by
  unfold beforeFirst
  apply List.takeWhile_eq_self_iff.mpr
  intro x hx
  rw [bne_iff_ne]
  exact fun hh => h (hh ▸ hx)

/-- The head of a one-character split is the prefix before the first
occurrence of the separator. -/
theorem pySplit_head (c : Char) (s : PyStr) :
    (pySplit s [c]).getD 0 [] = beforeFirst c s := by
  by_cases h : c ∈ s
  · obtain ⟨hdec, hnot⟩ := first_occurrence_decomp h
    conv_lhs => rw [hdec]
    rw [pySplit_append _ hnot]
    rfl
  · rw [pySplit_not_mem h, beforeFirst_of_not_mem h]
    rfl

theorem pyReplace_singleton_nil (s : PyStr) (c : Char) :
    pyReplace s [c] [] = s.filter (fun x => x != c) := by
  induction s with
  | nil => rw [pyReplace.eq_def]; rfl
  | cons x r ih =>
    rw [pyReplace.eq_def]
    dsimp only
    by_cases hcx : c = x
    · rw [dif_pos ⟨by simp, by rw [isPrefixOf_singleton]; exact beq_iff_eq.mpr hcx⟩]
      subst hcx
      have hx : (c != c) = false := by simp
      simpa [List.filter_cons, hx] using ih
    · rw [dif_neg]
      · have hx : (x != c) = true := by
          rw [bne_iff_ne]; exact fun hh => hcx hh.symm
        simp only [List.filter_cons, hx, if_true]
        rw [ih]
      · rintro ⟨-, hpre⟩
        rw [isPrefixOf_singleton] at hpre
        exact hcx (beq_iff_eq.mp hpre)

theorem mem_of_mem_pyReplace_singleton_nil {s : PyStr} {c x : Char}
    (h : x ∈ pyReplace s [c] []) : x ∈ s := by
  rw [pyReplace_singleton_nil] at h
  exact List.mem_of_mem_filter h

/-! ### Service-level helper lemmas -/

theorem length_get_weather_info (r : HttpResult WeatherData) :
    1 ≤ (get_weather_info r).length := by
  cases r with
  | exn => simp [get_weather_info]
  | ok d =>
    simp only [get_weather_info]
    split
    case isTrue h => exact List.length_pos.mpr h
    case isFalse h => simp

theorem length_get_attractions (r : HttpResult AttrData) :
    1 ≤ (get_attractions r).length := by
  cases r with
  | exn => simp [get_attractions]
  | ok d =>
    simp only [get_attractions]
    split
    case isTrue h => exact List.length_pos.mpr h
    case isFalse h => simp

theorem generate_fallback_itinerary_ne_nil (destination : PyStr) (days : Int)
    (weather : List WeatherInfo) (attractions : List Attraction) :
    generate_fallback_itinerary destination days weather attractions ≠ [] := by
  simp [generate_fallback_itinerary]

theorem llm_failed_gives_fallback (destination : PyStr) (days : Int) (budget : PyStr)
    (weather : List WeatherInfo) (attractions : List Attraction)
    (interests : Option (List PyStr)) (start_date : Option PyStr) (llm : LlmResult)
    (h : llmFailed llm = true) :
    generate_itinerary_with_llm destination days budget weather attractions interests
        start_date llm =
      generate_fallback_itinerary destination days weather attractions := by
  cases llm with
  | exn => rfl
  | ok body =>
    cases hb : body.choices with
    | none => simp [generate_itinerary_with_llm, hb]
    | some cs =>
      cases cs with
      | nil => simp [generate_itinerary_with_llm, hb]
      | cons c rest =>
        rw [llmFailed] at h
        simp [hb] at h

theorem hhmmToMin_mk (h : Nat) (m : PyStr) (hm : ':' ∉ m) :
    hhmmToMin (two2 h ++ ':' :: m) = 60 * h + pyStrToNat m := by
  unfold hhmmToMin
  rw [pySplit_append m (colon_not_mem_two2 h), pySplit_not_mem hm]
  simp [pyStrToNat_two2]

theorem find?_city_pairs_bounds {pred : (PyStr × PyStr) × Nat → Bool}
    {q : (PyStr × PyStr) × Nat} (h : city_pairs.find? pred = some q) :
    90 ≤ q.2 ∧ q.2 ≤ 185 := by
  have hmem := List.mem_of_find?_eq_some h
  simp [city_pairs] at hmem
  rcases hmem with h | h | h | h | h | h <;> rw [h] <;> exact ⟨by norm_num, by norm_num⟩

theorem flight_base_price_bounds (dep_slot : PyStr × PyStr) (code : PyStr) :
    350 ≤ flight_base_price dep_slot code ∧ flight_base_price dep_slot code ≤ 1000 := by
  unfold flight_base_price
  split_ifs <;> norm_num

theorem mkOffer_props (base : Nat) (d : OfferDraw) (hb1 : 90 ≤ base) (hb2 : base ≤ 185)
    (hd : ValidDraw d) :
    400 ≤ priceKey (mkOffer base d) ∧ priceKey (mkOffer base d) ≤ 1200 ∧
    ((mkOffer base d).transfer = "直飞".data ∨ (mkOffer base d).transfer = "经停".data) ∧
    ∃ dur : Int, 0 < dur ∧
      (hhmmToMin (mkOffer base d).arrival_time : Int) =
        ((hhmmToMin (mkOffer base d).departure_time : Int) + dur) % 1440 := by
  obtain ⟨ha8, hs5, hlo, hhi, hmin6, hj1, hj2, hp1, hp2, hf1, hf2, hac, hpu1, hpu2, hse, hdi⟩ := hd
  have hbp := flight_base_price_bounds
    (time_slots.getD d.slotIdx ("06:00".data, "08:00".data))
    (airlines.getD d.airlineIdx ("CA".data, "中国国际航空".data)).1
  refine ⟨?_, ?_, ?_, ?_⟩
  · have hkey : priceKey (mkOffer base d) =
        (max 400 (flight_base_price
            (time_slots.getD d.slotIdx ("06:00".data, "08:00".data))
            (airlines.getD d.airlineIdx ("CA".data, "中国国际航空".data)).1 +
          d.priceJitter)).toNat := by
      simp only [mkOffer, priceKey, List.drop_succ_cons, List.drop_zero,
        pyStrToNat_natToChars]
    rw [hkey]
    omega
  · have hkey : priceKey (mkOffer base d) =
        (max 400 (flight_base_price
            (time_slots.getD d.slotIdx ("06:00".data, "08:00".data))
            (airlines.getD d.airlineIdx ("CA".data, "中国国际航空".data)).1 +
          d.priceJitter)).toNat := by
      simp only [mkOffer, priceKey, List.drop_succ_cons, List.drop_zero,
        pyStrToNat_natToChars]
    rw [hkey]
    omega
  · cases htr : d.transferRand <;> simp [mkOffer, htr]
  · have hmcolon : ':' ∉ minute_choices.getD d.depMinuteIdx "00".data := by
      have hall : ∀ i, i < 6 → ':' ∉ minute_choices.getD i "00".data := by decide
      exact hall _ hmin6
    refine ⟨(base : Int) + d.durJitter, by omega, ?_⟩
    have hdepeq : (mkOffer base d).departure_time =
        two2 d.depHour ++ ':' :: minute_choices.getD d.depMinuteIdx "00".data := by
      simp only [mkOffer]
    have harreq : (mkOffer base d).arrival_time =
        two2 ((((60 * (d.depHour : Int) +
            (pyStrToNat (minute_choices.getD d.depMinuteIdx "00".data) : Int) +
            ((base : Int) + d.durJitter)) % 1440).toNat) / 60) ++
          ':' :: two2 ((((60 * (d.depHour : Int) +
            (pyStrToNat (minute_choices.getD d.depMinuteIdx "00".data) : Int) +
            ((base : Int) + d.durJitter)) % 1440).toNat) % 60) := by
      simp only [mkOffer]
    rw [hdepeq, harreq, hhmmToMin_mk _ _ hmcolon, hhmmToMin_mk _ _ (by
      exact colon_not_mem_two2 _)]
    rw [pyStrToNat_two2]
    have hT : 60 * ((((60 * (d.depHour : Int) +
        (pyStrToNat (minute_choices.getD d.depMinuteIdx "00".data) : Int) +
        ((base : Int) + d.durJitter)) % 1440).toNat) / 60) +
        ((((60 * (d.depHour : Int) +
        (pyStrToNat (minute_choices.getD d.depMinuteIdx "00".data) : Int) +
        ((base : Int) + d.durJitter)) % 1440).toNat) % 60) =
        (((60 * (d.depHour : Int) +
        (pyStrToNat (minute_choices.getD d.depMinuteIdx "00".data) : Int) +
        ((base : Int) + d.durJitter)) % 1440).toNat) := Nat.div_add_mod _ _
    rw [hT]
    push_cast
    omega

theorem get_flight_info_props (dep dest date : PyStr) (r : FlightRand)
    (hr : ValidFlightRand r) :
    4 ≤ (get_flight_info dep dest date r).length ∧
    (get_flight_info dep dest date r).length ≤ 8 ∧
    get_flight_info dep dest date r ≠ [] ∧
    List.Sorted (fun a b => priceKey a ≤ priceKey b) (get_flight_info dep dest date r) ∧
    ∀ f ∈ get_flight_info dep dest date r,
      400 ≤ priceKey f ∧ priceKey f ≤ 1200 ∧
      (f.transfer = "直飞".data ∨ f.transfer = "经停".data) ∧
      ∃ dur : Int, 0 < dur ∧
        (hhmmToMin f.arrival_time : Int) =
          ((hhmmToMin f.departure_time : Int) + dur) % 1440 := by
  obtain ⟨hb1, hb2, hc4, hc8, hdraws⟩ := hr
  have hbase : ∃ b : Nat, 90 ≤ b ∧ b ≤ 185 ∧
      get_flight_info dep dest date r =
        List.insertionSort (fun a b => priceKey a ≤ priceKey b)
          ((List.range r.count).map fun i => mkOffer b (r.draws.getD i defaultDraw)) := by
    unfold get_flight_info
    cases hf : city_pairs.find? fun p => p.1.1 == dep && p.1.2 == dest with
    | none => exact ⟨r.baseRand, hb1, by omega, rfl⟩
    | some q =>
      obtain ⟨hq1, hq2⟩ := find?_city_pairs_bounds hf
      exact ⟨q.2, hq1, hq2, rfl⟩
  obtain ⟨b, hB1, hB2, heq⟩ := hbase
  rw [heq]
  refine ⟨?_, ?_, ?_, ?_, ?_⟩
  · rw [List.length_insertionSort, List.length_map, List.length_range]
    omega
  · rw [List.length_insertionSort, List.length_map, List.length_range]
    omega
  · intro hnil
    have hlen := congrArg List.length hnil
    rw [List.length_insertionSort, List.length_map, List.length_range] at hlen
    simp at hlen
    omega
  · exact List.sorted_insertionSort _ _
  · intro f hf
    have hf2 : f ∈ (List.range r.count).map fun i => mkOffer b (r.draws.getD i defaultDraw) :=
      (List.perm_insertionSort _ _).mem_iff.mp hf
    rw [List.mem_map] at hf2
    obtain ⟨i, hi, rfl⟩ := hf2
    rw [List.mem_range] at hi
    exact mkOffer_props b _ hB1 hB2 (hdraws i hi)

/-! ### Claim theorems -/

/-- C1: for every city input and upstream weather/attraction provider
behaviour (exception-producing failure or any decoded body),
get_weather_info and get_attractions return a list of length at least 1;
whenever the upstream data cannot be parsed into at least one entry
(provider exception, non-success status, missing/falsy result, or an
empty entry list) the result is exactly one sentinel record carrying the
designated unavailable markers. -/
theorem lookup_degradation (rw : HttpResult WeatherData) (ra : HttpResult AttrData) :
    1 ≤ (get_weather_info rw).length ∧ 1 ≤ (get_attractions ra).length ∧
    ((rw = HttpResult.exn ∨ ∃ d, rw = HttpResult.ok d ∧ parsedWeatherList d = []) →
      get_weather_info rw = [weatherExnSentinel] ∨
        get_weather_info rw = [weatherEmptySentinel]) ∧
    ((ra = HttpResult.exn ∨ ∃ d, ra = HttpResult.ok d ∧ parsedAttractionList d = []) →
      get_attractions ra = [attractionExnSentinel] ∨
        get_attractions ra = [attractionEmptySentinel]) := by
  refine ⟨length_get_weather_info rw, length_get_attractions ra, ?_, ?_⟩
  · rintro (rfl | ⟨d, rfl, hd⟩)
    · exact Or.inl rfl
    · right
      simp [get_weather_info, hd]
  · rintro (rfl | ⟨d, rfl, hd⟩)
    · exact Or.inl rfl
    · right
      simp [get_attractions, hd]

theorem lookup_degradation_witness :
    (get_weather_info .exn = [weatherExnSentinel] ∨
      get_weather_info .exn = [weatherEmptySentinel]) ∧
    (get_attractions .exn = [attractionExnSentinel] ∨
      get_attractions .exn = [attractionEmptySentinel]) :=
  ⟨(lookup_degradation .exn .exn).2.2.1 (Or.inl rfl),
   (lookup_degradation .exn .exn).2.2.2 (Or.inl rfl)⟩

/-- C2: a request whose destination is empty or whitespace-only, or
whose day count lies outside 1..30, is rejected by the handler with an
HTTP 400 validation error, and no upstream call (weather, attractions,
flights, text generation) is performed; no response object is built. -/
theorem validation_rejects (req : TravelRequest) (env : Env)
    (h : pyStrip req.destination = [] ∨ req.days < 1 ∨ 30 < req.days) :
    (∃ d, (generate_travel_plan req env).1 = Except.error ⟨400, d⟩) ∧
    (generate_travel_plan req env).2 = [] := by
  unfold generate_travel_plan
  split_ifs with h1 h2
  · exact ⟨⟨_, rfl⟩, rfl⟩
  · exact ⟨⟨_, rfl⟩, rfl⟩
  · exfalso
    rcases h with h | h
    · exact h1 (Or.inr h)
    · exact h2 h

theorem validation_rejects_witness :
    (pyStrip [' '] = ([] : PyStr) ∨ (3 : Int) < 1 ∨ 30 < (3 : Int)) ∧
    ((∃ d, (generate_travel_plan ⟨[' '], 3, [], none, none, none⟩ envTriv).1 =
        Except.error ⟨400, d⟩) ∧
      (generate_travel_plan ⟨[' '], 3, [], none, none, none⟩ envTriv).2 = []) :=
  ⟨Or.inl (by decide),
   validation_rejects ⟨[' '], 3, [], none, none, none⟩ envTriv (Or.inl (by decide))⟩

/-- C3: whenever the text-generation call fails (exception, or a body
lacking a non-empty choices list), generate_itinerary_with_llm returns
(rather than raises) exactly the deterministic fallback itinerary built
from the same destination, days, weather and attractions. -/
theorem llm_failure_falls_back (destination : PyStr) (days : Int) (budget : PyStr)
    (weather : List WeatherInfo) (attractions : List Attraction)
    (interests : Option (List PyStr)) (start_date : Option PyStr) (llm : LlmResult)
    (h : llmFailed llm = true) :
    generate_itinerary_with_llm destination days budget weather attractions interests
        start_date llm =
      generate_fallback_itinerary destination days weather attractions :=
  llm_failed_gives_fallback destination days budget weather attractions interests
    start_date llm h

theorem llm_failure_falls_back_witness :
    llmFailed .exn = true ∧
    generate_itinerary_with_llm "北京".data 3 "中等".data [] [] none none .exn =
      generate_fallback_itinerary "北京".data 3 [] [] :=
  ⟨rfl, llm_failure_falls_back "北京".data 3 "中等".data [] [] none none .exn rfl⟩

/-- C6 (amended): for an upstream weather entry whose condition string
contains the separator, the parsed day condition is the substring before
the first separator, and the parsed night condition is the second
component of the separator split, i.e. the substring between the first
and the second separator occurrence; when the separator occurs exactly
once this night condition equals the substring after the first
separator, as the claim states.  For a condition string lacking the
separator, both parsed conditions are the original string. -/
theorem weather_condition_split (e : WeatherEntryRaw) (w : PyStr)
    (hw : e.weather = some w) :
    ('转' ∈ w →
      (parseWeatherDay e).day_weather = beforeFirst '转' w ∧
      (parseWeatherDay e).night_weather = beforeFirst '转' (afterFirst '转' w) ∧
      (w.count '转' = 1 →
        (parseWeatherDay e).night_weather = afterFirst '转' w)) ∧
    ('转' ∉ w →
      (parseWeatherDay e).day_weather = w ∧ (parseWeatherDay e).night_weather = w) := by
  constructor
  · intro hmem
    have hcont : pyContains w ['转'] = true := (pyContains_singleton w '转').mpr hmem
    obtain ⟨hdec, hnotb⟩ := first_occurrence_decomp hmem
    have hsplit : pySplit w ['转'] =
        beforeFirst '转' w :: pySplit (afterFirst '转' w) ['转'] := by
      conv_lhs => rw [hdec]
      exact pySplit_append _ hnotb
    obtain ⟨a0, arest, ha⟩ : ∃ a0 arest,
        pySplit (afterFirst '转' w) ['转'] = a0 :: arest := by
      cases hh : pySplit (afterFirst '转' w) ['转'] with
      | nil => exact absurd hh (pySplit_ne_nil _ _)
      | cons a b => exact ⟨a, b, rfl⟩
    have ha0 : a0 = beforeFirst '转' (afterFirst '转' w) := by
      have h3 := pySplit_head '转' (afterFirst '转' w)
      rw [ha] at h3
      simpa using h3
    have hday : (parseWeatherDay e).day_weather = beforeFirst '转' w := by
      simp only [parseWeatherDay, hw, Option.getD_some, hcont, if_true]
      rw [hsplit, ha]
      simp
    have hnight : (parseWeatherDay e).night_weather =
        beforeFirst '转' (afterFirst '转' w) := by
      simp only [parseWeatherDay, hw, Option.getD_some, hcont, if_true]
      rw [hsplit, ha]
      simp [ha0]
    refine ⟨hday, hnight, ?_⟩
    intro hcount
    have hcb : w.count '转' =
        (beforeFirst '转' w).count '转' + ((afterFirst '转' w).count '转' + 1) := by
      conv_lhs => rw [hdec]
      rw [List.count_append]
      simp [List.count_cons]
    have hb0 : (beforeFirst '转' w).count '转' = 0 := List.count_eq_zero.mpr hnotb
    have hafter : '转' ∉ afterFirst '转' w := by
      apply List.count_eq_zero.mp
      omega
    rw [hnight, beforeFirst_of_not_mem hafter]
  · intro hmem
    have hcont : pyContains w ['转'] = false := by
      rw [Bool.eq_false_iff]
      exact fun hc => hmem ((pyContains_singleton w '转').mp hc)
    constructor <;>
    · simp only [parseWeatherDay, hw, Option.getD_some, hcont]
      rw [if_neg (by simp)]

theorem weather_condition_split_counterexample :
    (⟨none, some ['a', '转', 'b', '转', 'c'], none, none⟩ : WeatherEntryRaw).weather
        = some ['a', '转', 'b', '转', 'c'] ∧
    '转' ∈ (['a', '转', 'b', '转', 'c'] : PyStr) ∧
    afterFirst '转' ['a', '转', 'b', '转', 'c'] = ['b', '转', 'c'] ∧
    (parseWeatherDay ⟨none, some ['a', '转', 'b', '转', 'c'], none, none⟩).night_weather
        = ['b'] ∧
    (parseWeatherDay ⟨none, some ['a', '转', 'b', '转', 'c'], none, none⟩).night_weather
        ≠ afterFirst '转' ['a', '转', 'b', '转', 'c'] := by
  have h2 : (parseWeatherDay
      ⟨none, some ['a', '转', 'b', '转', 'c'], none, none⟩).night_weather = ['b'] := by
    simp [parseWeatherDay, pySplit_cons, pySplit_nil, pyReplace_singleton_nil, pyContains]
  refine ⟨rfl, by decide, by decide, h2, ?_⟩
  rw [h2]
  decide

theorem weather_condition_split_witness :
    ((⟨none, some ['小', '雨', '转', '多', '云'], none, none⟩ :
        WeatherEntryRaw).weather = some ['小', '雨', '转', '多', '云']) ∧
    '转' ∈ (['小', '雨', '转', '多', '云'] : PyStr) ∧
    (['小', '雨', '转', '多', '云'] : PyStr).count '转' = 1 ∧
    (parseWeatherDay ⟨none, some ['小', '雨', '转', '多', '云'], none, none⟩).day_weather
        = beforeFirst '转' ['小', '雨', '转', '多', '云'] ∧
    (parseWeatherDay ⟨none, some ['小', '雨', '转', '多', '云'], none, none⟩).night_weather
        = afterFirst '转' ['小', '雨', '转', '多', '云'] :=
  ⟨rfl, by decide, by decide,
   ((weather_condition_split _ _ rfl).1 (by decide)).1,
   ((weather_condition_split _ _ rfl).1 (by decide)).2.2 (by decide)⟩

/-- C7 (amended): for an upstream weather entry whose temperature field
has the shape A/B followed by the degree character, with A and B free of
the delimiter and degree characters and with A/B not the literal
unavailable marker, the parsed night temperature is A with the degree
suffix and the parsed day temperature is B with the degree suffix; a
temperature field lacking the delimiter yields the unavailable marker
for both temperatures. -/
theorem weather_temperature_split (e : WeatherEntryRaw) (t : PyStr)
    (ht : e.temperature = some t) :
    (∀ A B : PyStr, t = A ++ '/' :: B ++ ['℃'] →
      '/' ∉ A → '/' ∉ B → '℃' ∉ A → '℃' ∉ B →
      A ++ '/' :: B ≠ ['N', '/', 'A'] →
      (parseWeatherDay e).night_temp = A ++ ['°', 'C'] ∧
      (parseWeatherDay e).day_temp = B ++ ['°', 'C']) ∧
    ('/' ∉ t →
      (parseWeatherDay e).night_temp = ['N', '/', 'A'] ∧
      (parseWeatherDay e).day_temp = ['N', '/', 'A']) := by
  constructor
  · intro A B hAB hsA hsB hdA hdB hNA
    have hfA : A.filter (fun x => x != '℃') = A :=
      List.filter_eq_self.mpr fun a hmem => by
        rw [bne_iff_ne]
        exact fun hh => hdA (hh ▸ hmem)
    have hfB : B.filter (fun x => x != '℃') = B :=
      List.filter_eq_self.mpr fun a hmem => by
        rw [bne_iff_ne]
        exact fun hh => hdB (hh ▸ hmem)
    have hrange : pyReplace t ['℃'] [] = A ++ '/' :: B := by
      rw [pyReplace_singleton_nil, hAB]
      simp [List.filter_append, List.filter_cons, hfA, hfB]
    have hcont : pyContains (A ++ '/' :: B) ['/'] = true :=
      (pyContains_singleton _ _).mpr (by simp)
    have hsplit : pySplit (A ++ '/' :: B) ['/'] = [A, B] := by
      rw [pySplit_append B hsA, pySplit_not_mem hsB]
    constructor <;>
    · simp only [parseWeatherDay, ht, Option.getD_some, hrange, hcont]
      rw [if_pos ⟨trivial, hNA⟩, hsplit]
      simp
  · intro hmem
    have hnot : '/' ∉ pyReplace t ['℃'] [] :=
      fun hc => hmem (mem_of_mem_pyReplace_singleton_nil hc)
    have hcont : pyContains (pyReplace t ['℃'] []) ['/'] = false := by
      rw [Bool.eq_false_iff]
      exact fun hc => hnot ((pyContains_singleton _ _).mp hc)
    constructor <;>
    · simp only [parseWeatherDay, ht, Option.getD_some, hcont]
      rw [if_neg (by simp)]

theorem weather_temperature_split_counterexample :
    (⟨some ['N', '/', 'A', '℃'], none, none, none⟩ : WeatherEntryRaw).temperature
        = some (['N'] ++ '/' :: ['A'] ++ ['℃']) ∧
    (parseWeatherDay ⟨some ['N', '/', 'A', '℃'], none, none, none⟩).night_temp
        = ['N', '/', 'A'] ∧
    (parseWeatherDay ⟨some ['N', '/', 'A', '℃'], none, none, none⟩).night_temp
        ≠ ['N'] ++ ['°', 'C'] := by
  have h2 : (parseWeatherDay
      ⟨some ['N', '/', 'A', '℃'], none, none, none⟩).night_temp = ['N', '/', 'A'] := by
    simp [parseWeatherDay, pySplit_cons, pySplit_nil, pyReplace_singleton_nil, pyContains]
  refine ⟨rfl, h2, ?_⟩
  rw [h2]
  decide

theorem weather_temperature_split_witness :
    ((⟨some ['1', '/', '7', '℃'], none, none, none⟩ :
        WeatherEntryRaw).temperature = some ['1', '/', '7', '℃']) ∧
    (['1', '/', '7', '℃'] : PyStr) = ['1'] ++ '/' :: ['7'] ++ ['℃'] ∧
    (parseWeatherDay ⟨some ['1', '/', '7', '℃'], none, none, none⟩).night_temp
        = ['1'] ++ ['°', 'C'] ∧
    (parseWeatherDay ⟨some ['1', '/', '7', '℃'], none, none, none⟩).day_temp
        = ['7'] ++ ['°', 'C'] :=
  ⟨rfl, rfl,
   ((weather_temperature_split _ _ rfl).1 ['1'] ['7'] rfl (by decide) (by decide)
      (by decide) (by decide) (by decide)).1,
   ((weather_temperature_split _ _ rfl).1 ['1'] ['7'] rfl (by decide) (by decide)
      (by decide) (by decide) (by decide)).2⟩

/-- C8: in the fallback composer, the attraction section of day d
(1-based, d within 1..days) is exactly the slice of the attraction list
from index (d-1)*2 up to and excluding index d*2+1, i.e. a window of at
most 3 items starting at index (d-1)*2; consecutive days' windows share
the element at index d*2 whenever it exists, so the windows overlap
rather than partitioning the list; and the day's weather line (condition
plus day temperature) is present exactly when d is at most the length of
the weather list. -/
theorem fallback_day_windows (days : Int) (d : Nat) (weather : List WeatherInfo)
    (attractions : List Attraction) (hd1 : 1 ≤ d) (hd2 : (d : Int) ≤ days) :
    fallbackDayAttractions d attractions = (attractions.drop ((d - 1) * 2)).take 3 ∧
    (fallbackDayAttractions d attractions).length ≤ 3 ∧
    (∀ a, attractions[d * 2]? = some a →
      a ∈ fallbackDayAttractions d attractions ∧
      a ∈ fallbackDayAttractions (d + 1) attractions) ∧
    (dayWeatherPart d weather ≠ [] ↔ d ≤ weather.length) := by
  have hwin : ∀ k, fallbackDayAttractions (k + 1) attractions =
      (attractions.drop (k * 2)).take 3 := by
    intro k
    unfold fallbackDayAttractions
    rw [List.drop_take, show (k + 1 - 1) * 2 = k * 2 by omega,
      show (k + 1) * 2 + 1 - k * 2 = 3 by omega]
  obtain ⟨e, rfl⟩ : ∃ e, d = e + 1 := ⟨d - 1, by omega⟩
  have h1 : fallbackDayAttractions (e + 1) attractions =
      (attractions.drop ((e + 1 - 1) * 2)).take 3 := by
    rw [hwin e, show (e + 1 - 1) * 2 = e * 2 by omega]
  refine ⟨h1, ?_, ?_, ?_⟩
  · rw [h1, List.length_take]
    exact Nat.min_le_left _ _
  · intro a hga
    constructor
    · have hx : (fallbackDayAttractions (e + 1) attractions)[2]? = some a := by
        rw [hwin e, List.getElem?_take, if_pos (by omega), List.getElem?_drop,
          show e * 2 + 2 = (e + 1) * 2 by ring]
        exact hga
      exact List.getElem?_mem hx
    · have hx : (fallbackDayAttractions (e + 1 + 1) attractions)[0]? = some a := by
        rw [hwin (e + 1), List.getElem?_take, if_pos (by omega), List.getElem?_drop,
          show (e + 1) * 2 + 0 = (e + 1) * 2 by ring]
        exact hga
      exact List.getElem?_mem hx
  · constructor
    · intro hne
      by_contra hle
      rw [dayWeatherPart, if_neg hle] at hne
      exact hne rfl
    · intro hle
      rw [dayWeatherPart, if_pos hle]
      apply List.append_ne_nil_of_right_ne_nil
      decide

theorem fallback_day_windows_witness :
    1 ≤ 1 ∧ ((1 : Nat) : Int) ≤ 2 ∧
    (fallbackDayAttractions 1 attrsSample = (attrsSample.drop ((1 - 1) * 2)).take 3 ∧
     (fallbackDayAttractions 1 attrsSample).length ≤ 3 ∧
     (∀ a, attrsSample[1 * 2]? = some a →
        a ∈ fallbackDayAttractions 1 attrsSample ∧
        a ∈ fallbackDayAttractions (1 + 1) attrsSample) ∧
     (dayWeatherPart 1 weatherSample ≠ [] ↔ 1 ≤ weatherSample.length)) :=
  ⟨le_refl 1, by decide,
   fallback_day_windows 2 1 weatherSample attrsSample (le_refl 1) (by decide)⟩

/-- C4: for every city pair and date, under the ranges the random
module guarantees for its draws, the returned flight list has length in
4..8 (in particular it is non-empty), is sorted non-decreasingly by the
numeric price obtained by stripping the currency prefix, and every
offer has numeric price at least 400, a transfer marker that is one of
the two designated labels, and an arrival instant that lies a positive
number of minutes after the departure instant modulo the same-day
wraparound of the HH:MM rendering. -/
theorem flight_list_invariants (dep dest date : PyStr) (r : FlightRand)
    (hr : ValidFlightRand r) :
    4 ≤ (get_flight_info dep dest date r).length ∧
    (get_flight_info dep dest date r).length ≤ 8 ∧
    get_flight_info dep dest date r ≠ [] ∧
    List.Sorted (fun a b => priceKey a ≤ priceKey b) (get_flight_info dep dest date r) ∧
    ∀ f ∈ get_flight_info dep dest date r,
      400 ≤ priceKey f ∧
      (f.transfer = "直飞".data ∨ f.transfer = "经停".data) ∧
      ∃ dur : Int, 0 < dur ∧
        (hhmmToMin f.arrival_time : Int) =
          ((hhmmToMin f.departure_time : Int) + dur) % 1440 := by
  obtain ⟨h1, h2, h3, h4, h5⟩ := get_flight_info_props dep dest date r hr
  exact ⟨h1, h2, h3, h4, fun f hf => ⟨(h5 f hf).1, (h5 f hf).2.2.1, (h5 f hf).2.2.2⟩⟩

theorem flight_list_invariants_witness :
    ValidFlightRand sampleRand ∧
    (4 ≤ (get_flight_info "北京".data "上海".data "2025-11-01".data sampleRand).length ∧
     (get_flight_info "北京".data "上海".data "2025-11-01".data sampleRand).length ≤ 8 ∧
     get_flight_info "北京".data "上海".data "2025-11-01".data sampleRand ≠ [] ∧
     List.Sorted (fun a b => priceKey a ≤ priceKey b)
       (get_flight_info "北京".data "上海".data "2025-11-01".data sampleRand) ∧
     ∀ f ∈ get_flight_info "北京".data "上海".data "2025-11-01".data sampleRand,
       400 ≤ priceKey f ∧
       (f.transfer = "直飞".data ∨ f.transfer = "经停".data) ∧
       ∃ dur : Int, 0 < dur ∧
         (hhmmToMin f.arrival_time : Int) =
           ((hhmmToMin f.departure_time : Int) + dur) % 1440) :=
  ⟨by decide, flight_list_invariants "北京".data "上海".data "2025-11-01".data
    sampleRand (by decide)⟩

/-- C9: every generated offer's numeric price (obtained by stripping
the currency prefix) also satisfies the implicit upper bound: it lies in
the closed interval 400..1200. -/
theorem flight_price_bounds (dep dest date : PyStr) (r : FlightRand)
    (hr : ValidFlightRand r) :
    ∀ f ∈ get_flight_info dep dest date r, 400 ≤ priceKey f ∧ priceKey f ≤ 1200 := by
  intro f hf
  obtain ⟨-, -, -, -, h5⟩ := get_flight_info_props dep dest date r hr
  exact ⟨(h5 f hf).1, (h5 f hf).2.1⟩

theorem flight_price_bounds_witness :
    ValidFlightRand sampleRand ∧
    ∀ f ∈ get_flight_info "北京".data "上海".data "2025-11-01".data sampleRand,
      400 ≤ priceKey f ∧ priceKey f ≤ 1200 :=
  ⟨by decide, flight_price_bounds "北京".data "上海".data "2025-11-01".data
    sampleRand (by decide)⟩

/-- C5 (amended): for every valid request (non-blank destination, days
in 1..30) and every upstream behaviour, the handler succeeds with a
response whose weather and attraction lists have length at least 1,
whose status is the success marker, and whose flight_info is present
with 4 to 8 entries exactly when both a departure city and a start date
were supplied non-empty (Python truthiness), and null otherwise.  The
itinerary text is non-empty whenever the text generation fails (the
fallback text is never empty); it can only be empty when the text
generation succeeded returning an empty first-choice content, in which
case that empty content is passed through. -/
theorem plan_response_shape (req : TravelRequest) (env : Env)
    (hdest : pyStrip req.destination ≠ [])
    (hdays1 : 1 ≤ req.days) (hdays2 : req.days ≤ 30)
    (hfl : ValidFlightRand env.flightRand) :
    ∃ resp, (generate_travel_plan req env).1 = Except.ok resp ∧
      1 ≤ resp.weather_info.length ∧ 1 ≤ resp.attractions.length ∧
      resp.status = "success".data ∧
      ((truthyStr req.departure_city && truthyStr req.start_date) = true →
        ∃ fl, resp.flight_info = some fl ∧ 4 ≤ fl.length ∧ fl.length ≤ 8) ∧
      ((truthyStr req.departure_city && truthyStr req.start_date) = false →
        resp.flight_info = none) ∧
      (llmFailed env.llmResp = true → resp.itinerary ≠ []) ∧
      (resp.itinerary = [] →
        ∃ c rest, env.llmResp = LlmResult.ok ⟨some (c :: rest)⟩ ∧
          c.message_content = some []) := by
  unfold generate_travel_plan
  have h1 : ¬(req.destination = [] ∨ pyStrip req.destination = []) := by
    rintro (h | h)
    · apply hdest
      rw [h]
      rfl
    · exact hdest h
  rw [if_neg h1, if_neg (by omega : ¬(req.days < 1 ∨ 30 < req.days))]
  refine ⟨_, rfl, length_get_weather_info _, length_get_attractions _, rfl, ?_, ?_, ?_, ?_⟩
  · intro htr
    dsimp only
    rw [if_pos htr]
    obtain ⟨hl1, hl2, -, -, -⟩ := get_flight_info_props (req.departure_city.getD [])
      req.destination (req.start_date.getD []) env.flightRand hfl
    exact ⟨_, rfl, hl1, hl2⟩
  · intro htr
    dsimp only
    rw [if_neg (by rw [htr]; exact Bool.false_ne_true)]
  · intro hllm
    dsimp only
    rw [llm_failed_gives_fallback _ _ _ _ _ _ _ _ hllm]
    exact generate_fallback_itinerary_ne_nil _ _ _ _
  · intro hempty
    dsimp only at hempty
    cases henv : env.llmResp with
    | exn =>
      rw [henv] at hempty
      exact absurd hempty (generate_fallback_itinerary_ne_nil _ _ _ _)
    | ok body =>
      cases body with
      | mk choices =>
        cases hch : choices with
        | none =>
          rw [henv, hch] at hempty
          exact absurd hempty (generate_fallback_itinerary_ne_nil _ _ _ _)
        | some cs =>
          cases cs with
          | nil =>
            rw [henv, hch] at hempty
            exact absurd hempty (generate_fallback_itinerary_ne_nil _ _ _ _)
          | cons c rest =>
            cases hc : c.message_content with
            | none =>
              rw [henv, hch] at hempty
              simp [generate_itinerary_with_llm, hc] at hempty
              exact absurd hempty (generate_fallback_itinerary_ne_nil _ _ _ _)
            | some txt =>
              refine ⟨c, rest, rfl, ?_⟩
              rw [hc]
              rw [henv, hch] at hempty
              simp [generate_itinerary_with_llm, hc] at hempty
              rw [hempty]

theorem plan_response_shape_counterexample :
    pyStrip reqEmptyContent.destination ≠ [] ∧
    1 ≤ reqEmptyContent.days ∧ reqEmptyContent.days ≤ 30 ∧
    ((generate_travel_plan reqEmptyContent envEmptyContent).1.toOption.map
        TravelPlanResponse.itinerary) = some [] := by
  exact ⟨by decide, by decide, by decide, rfl⟩

theorem plan_response_shape_witness :
    (pyStrip reqWithFlights.destination ≠ [] ∧ 1 ≤ reqWithFlights.days ∧
     reqWithFlights.days ≤ 30 ∧ ValidFlightRand envTriv.flightRand) ∧
    (∃ resp, (generate_travel_plan reqWithFlights envTriv).1 = Except.ok resp ∧
      1 ≤ resp.weather_info.length ∧ 1 ≤ resp.attractions.length ∧
      resp.status = "success".data ∧
      ((truthyStr reqWithFlights.departure_city &&
          truthyStr reqWithFlights.start_date) = true →
        ∃ fl, resp.flight_info = some fl ∧ 4 ≤ fl.length ∧ fl.length ≤ 8) ∧
      ((truthyStr reqWithFlights.departure_city &&
          truthyStr reqWithFlights.start_date) = false →
        resp.flight_info = none) ∧
      (llmFailed envTriv.llmResp = true → resp.itinerary ≠ []) ∧
      (resp.itinerary = [] →
        ∃ c rest, envTriv.llmResp = LlmResult.ok ⟨some (c :: rest)⟩ ∧
          c.message_content = some [])) :=
  ⟨⟨by decide, by decide, by decide, by decide⟩,
   plan_response_shape reqWithFlights envTriv (by decide) (by decide) (by decide)
     (by decide)⟩

/-- C10: the success path of the text generation returns the first
choice's content verbatim, without a non-emptiness check: a successful
response with empty first-choice content makes the composed itinerary
(and the assembled TravelPlanResponse.itinerary) the empty string, which
differs from the fallback text. -/
theorem llm_empty_content_passthrough :
    generate_itinerary_with_llm "北京".data 3 "中等".data [] [] none none
        (.ok ⟨some [⟨some []⟩]⟩) = [] ∧
    generate_fallback_itinerary "北京".data 3 [] [] ≠ [] ∧
    ((generate_travel_plan reqEmptyContent envEmptyContent).1.toOption.map
        TravelPlanResponse.itinerary) = some [] := by
  refine ⟨rfl, ?_, ?_⟩
  · exact generate_fallback_itinerary_ne_nil _ _ _ _
  · rfl

end TravelBackend
